import Mathlib

/-!
Verification development for the rtlaser-online after-hours backend
(`src/src/server.ts`, two concatenated variants, and `src/unnamed/part_000`).

The file shallowly embeds the request handlers that the claims concern:
the in-memory server state (after-hours config, emergency-contact registry,
email-sender override, chat-platform config, bounded diagnostic log) and the
handlers `PUT /admin/after-hours/config`, `GET`/`POST`/`DELETE
/admin/emergency/emails`, `POST /admin/emergency/alert` (the nodemailer
variant), `POST /config/email`, `POST /` (webhook) and the `addLog` helper.

JavaScript runtime values that the handlers inspect are embedded as `JVal`
(JSON-shaped values whose numbers are `JSNum`: NaN, the two infinities, or a
finite rational standing for an IEEE double).  Clock reads (`Date.now()`),
random ids and timestamp strings are nondeterministic inputs of the process
and are passed to each embedded handler as explicit parameters.
Human-readable Portuguese response/log message texts are omitted from the
embedded responses: no claim mentions their content.
-/

/-- JavaScript numbers as the handlers observe them: `NaN`, the infinities,
or a finite value (modelled as a rational; the handlers only compare numbers
with zero and take `Math.floor`, so no double rounding is exercised). -/
inductive JSNum where
  | nan
  | posInf
  | negInf
  | finite (q : Rat)
deriving Repr, DecidableEq

/-- JavaScript `Math.floor`: identity on `NaN` and the infinities, rational
floor on finite values. -/
def jsFloor : JSNum → JSNum
  | .nan => .nan
  | .posInf => .posInf
  | .negInf => .negInf
  | .finite q => .finite (q.floor : Int)

/-- JavaScript comparison `n > 0` (false on `NaN`). -/
def jsGtZero : JSNum → Bool
  | .nan => false
  | .posInf => true
  | .negInf => false
  | .finite q => 0 < q

/-- Truthiness of a JavaScript number: `0`, `-0` and `NaN` are falsy. -/
def jsNumTruthy : JSNum → Bool
  | .nan => false
  | .posInf => true
  | .negInf => true
  | .finite q => q ≠ 0

/-- The JSON-shaped JavaScript values a request body may hold. -/
inductive JVal where
  | jnull
  | jbool (b : Bool)
  | jnum (n : JSNum)
  | jstr (s : String)
  | jarr (elems : List JVal)
  | jobj (fields : List (String × JVal))
deriving Repr

/-- JavaScript truthiness of a `JVal` (`undefined` is represented by an
absent `Option JVal`, handled at each use site). -/
def jsTruthy : JVal → Bool
  | .jnull => false
  | .jbool b => b
  | .jnum n => jsNumTruthy n
  | .jstr s => s ≠ ""
  | .jarr _ => true
  | .jobj _ => true

/-- Truthiness of a possibly-absent body field (`undefined` is falsy). -/
def optTruthy : Option JVal → Bool
  | none => false
  | some v => jsTruthy v

/-- Field lookup in a JSON object value; `none` on any other shape or on a
missing key (JavaScript property access yielding `undefined`). -/
def jlookup (v : JVal) (key : String) : Option JVal :=
  match v with
  | .jobj fields => fields.lookup key
  | _ => none

/-- Decimal digits of a natural number, most significant first, as
characters.  Models the digit stream of JavaScript
`Number.prototype.toString()` on the integer values of `Date.now()`. -/
def natToDecChars (n : Nat) : List Char :=
  if _h : n < 10 then [Nat.digitChar n]
  else natToDecChars (n / 10) ++ [Nat.digitChar (n % 10)]
decreasing_by exact Nat.div_lt_self (by omega) (by omega)

/-- JavaScript `Number.prototype.toString()` restricted to the integer clock
values the server feeds it (`Date.now()`). -/
def natToString (n : Nat) : String := ⟨natToDecChars n⟩

/-- Decimal rendering of a finite JavaScript number.  Only the integral case
is exercised by any embedded handler on the claims' inputs; fractional
values fall back to the rational's own rendering. -/
def jsNumToString : JSNum → String
  | .nan => "NaN"
  | .posInf => "Infinity"
  | .negInf => "-Infinity"
  | .finite q =>
      if q.den = 1 then
        if q.num < 0 then "-" ++ natToString q.num.natAbs else natToString q.num.natAbs
      else toString q

/-- JavaScript `String.prototype.trim`, modelled directly on the character
list so that it evaluates in the kernel (the claims trim only ASCII
whitespace). -/
def jsTrim (s : String) : String :=
  ⟨((s.data.dropWhile fun c => c.isWhitespace).reverse.dropWhile
      fun c => c.isWhitespace).reverse⟩

/-- Escape of one character inside a JSON string literal, as
`JSON.stringify` performs it (the claims only serialize plain text). -/
def escapeJsonChar (c : Char) : String :=
  if c = '"' then "\\\""
  else if c = '\\' then "\\\\"
  else if c = '\n' then "\\n"
  else if c = '\r' then "\\r"
  else if c = '\t' then "\\t"
  else String.singleton c

/-- Escape of a JSON string body. -/
def escapeJsonString (s : String) : String :=
  String.join (s.toList.map escapeJsonChar)

mutual

/-- The serialization `JSON.stringify` applies to a webhook body before it
is placed in the diagnostic log (`NaN` and infinities serialize as `null`). -/
def jsonStringify : JVal → String
  | .jnull => "null"
  | .jbool b => if b then "true" else "false"
  | .jnum (.finite q) => jsNumToString (.finite q)
  | .jnum _ => "null"
  | .jstr s => "\"" ++ escapeJsonString s ++ "\""
  | .jarr l => "[" ++ jsonStringifyArr l ++ "]"
  | .jobj fields => "\x7b" ++ jsonStringifyFields fields ++ "\x7d"

/-- Comma-joined serialization of the elements of a JSON array. -/
def jsonStringifyArr : List JVal → String
  | [] => ""
  | [e] => jsonStringify e
  | e :: rest => jsonStringify e ++ "," ++ jsonStringifyArr rest

/-- Comma-joined serialization of the fields of a JSON object. -/
def jsonStringifyFields : List (String × JVal) → String
  | [] => ""
  | [(k, v)] => "\"" ++ escapeJsonString k ++ "\":" ++ jsonStringify v
  | (k, v) :: rest =>
      "\"" ++ escapeJsonString k ++ "\":" ++ jsonStringify v ++ "," ++ jsonStringifyFields rest

end

mutual

/-- JavaScript string coercion `String(e)` as `POST /config/email` applies
it to each element of the `to` array. -/
def jsToString : JVal → String
  | .jnull => "null"
  | .jbool b => if b then "true" else "false"
  | .jnum n => jsNumToString n
  | .jstr s => s
  | .jarr l => jsToStringArr l
  | .jobj _ => "[object Object]"

/-- JavaScript `Array.prototype.toString` (join with commas; `null`
elements render empty). -/
def jsToStringArr : List JVal → String
  | [] => ""
  | [.jnull] => ""
  | [e] => jsToString e
  | .jnull :: rest => "," ++ jsToStringArr rest
  | e :: rest => jsToString e ++ "," ++ jsToStringArr rest

end

/-- An emergency contact (type `EmergencyEmail` in `server.ts`). -/
structure EmergencyEmail where
  id : String
  name : String
  email : String
  active : Bool
  createdAt : String
deriving Repr, DecidableEq

/-- Diagnostic log severity. -/
inductive LogLevel where
  | info
  | warn
  | error
deriving Repr, DecidableEq

/-- One diagnostic log entry (type `DiagnosticLogEntry` in `server.ts`). -/
structure DiagnosticLogEntry where
  id : String
  level : LogLevel
  message : String
  timestamp : String
  context : Option String
deriving Repr, DecidableEq

/-- The after-hours configuration singleton (type `AfterHoursConfig`).
`maxAutoReplies` is kept as a JavaScript number: the update handler can
store `Infinity` in it. -/
structure AfterHoursConfig where
  robotEnabled : Bool
  atendimentoInicio : String
  atendimentoFim : String
  maxAutoReplies : JSNum
deriving Repr, DecidableEq

/-- The chat-platform connection configuration (type `ChatGuruConfig`). -/
structure ChatGuruConfig where
  apiUrl : String
  accountId : String
  instanceId : String
deriving Repr, DecidableEq

/-- The mutable module-level state of the first `server.ts` variant:
`afterHoursConfig`, `emergencyEmails`, `emailConfigFrom`, `chatguruConfig`
and `diagnosticLogs`. -/
structure ServerState where
  afterHours : AfterHoursConfig
  emergencyEmails : List EmergencyEmail
  emailConfigFrom : Option String
  chatguru : ChatGuruConfig
  diagnosticLogs : List DiagnosticLogEntry
deriving Repr

/-- The state at process start with empty environment overrides: the
defaults written in the module-level initializers. -/
def initialServerState : ServerState where
  afterHours :=
    { robotEnabled := true
      atendimentoInicio := "09:00"
      atendimentoFim := "19:00"
      maxAutoReplies := .finite 10 }
  emergencyEmails := []
  emailConfigFrom := none
  chatguru := { apiUrl := "", accountId := "", instanceId := "" }
  diagnosticLogs := []

/-- The `addLog` helper: build an entry (its generated id and timestamp are
nondeterministic inputs, passed explicitly), `unshift` it to the front, and
`pop` the last entry when the length exceeds 100. -/
def addLog (level : LogLevel) (message : String) (context : Option String)
    (entryId timestamp : String) (logs : List DiagnosticLogEntry) :
    List DiagnosticLogEntry :=
  let entry : DiagnosticLogEntry :=
    { id := entryId, level := level, message := message
      timestamp := timestamp, context := context }
  let logs' := entry :: logs
  if logs'.length > 100 then logs'.dropLast else logs'

/-- The recipient expression shared by the status reads and the alert
handler: `emergencyEmails.filter((e) => e.active).map((e) => e.email)`. -/
def activeRecipients (emails : List EmergencyEmail) : List String :=
  (emails.filter (fun e => e.active)).map (fun e => e.email)

/-- The `email.to` field of the `GET /config` and
`GET /admin/after-hours/config` snapshots. -/
def getConfigEmailTo (st : ServerState) : List String :=
  activeRecipients st.emergencyEmails

/-- Body of `PUT /admin/after-hours/config` after destructuring: each field
either absent or some JavaScript value. -/
structure UpdateConfigBody where
  robotEnabled : Option JVal := none
  atendimentoInicio : Option JVal := none
  atendimentoFim : Option JVal := none
  maxAutoReplies : Option JVal := none

/-- The config-mutation part of `PUT /admin/after-hours/config`: each field
is applied only when its `typeof` test passes; `maxAutoReplies` only when it
is a number, not `NaN`, and greater than zero, in which case `Math.floor` of
it is stored. -/
def updateGeneralConfig (body : UpdateConfigBody) (cfg : AfterHoursConfig) :
    AfterHoursConfig :=
  let cfg := match body.robotEnabled with
    | some (.jbool b) => { cfg with robotEnabled := b }
    | _ => cfg
  let cfg := match body.atendimentoInicio with
    | some (.jstr s) => { cfg with atendimentoInicio := s }
    | _ => cfg
  let cfg := match body.atendimentoFim with
    | some (.jstr s) => { cfg with atendimentoFim := s }
    | _ => cfg
  match body.maxAutoReplies with
  | some (.jnum n) =>
      if n ≠ .nan ∧ jsGtZero n then { cfg with maxAutoReplies := jsFloor n }
      else cfg
  | _ => cfg

/-- Response of `PUT /admin/after-hours/config` (always `success: true` with
the resulting config; the handler has no failure path). -/
structure UpdateConfigResponse where
  status : Nat
  success : Bool
  config : AfterHoursConfig
deriving Repr, DecidableEq

/-- The full `PUT /admin/after-hours/config` handler of the first variant:
mutate the config, append one diagnostic log entry, respond 200. -/
def putAfterHoursConfig (body : UpdateConfigBody) (logId logTs : String)
    (st : ServerState) : ServerState × UpdateConfigResponse :=
  let cfg := updateGeneralConfig body st.afterHours
  let st' :=
    { st with
      afterHours := cfg
      diagnosticLogs :=
        addLog .info
          "Configuracao geral do after-hours atualizada via /admin/after-hours/config"
          none logId logTs st.diagnosticLogs }
  (st', { status := 200, success := true, config := cfg })

/-- Response of `GET /admin/emergency/emails`: always `success: true` with
the full collection. -/
def getEmergencyEmails (st : ServerState) : Bool × List EmergencyEmail :=
  (true, st.emergencyEmails)

/-- Body of `POST /admin/emergency/emails` after destructuring. -/
structure AddEmailBody where
  name : Option JVal := none
  email : Option JVal := none

/-- Outcome of `POST /admin/emergency/emails`: a 400 validation failure, or
200 with the created contact and the full updated collection. -/
inductive AddOutcome where
  | err (status : Nat) (success : Bool)
  | ok (status : Nat) (success : Bool) (created : EmergencyEmail)
      (emails : List EmergencyEmail)
deriving Repr, DecidableEq

/-- The `POST /admin/emergency/emails` handler.  The guard is the source's
`!email || typeof email !== "string"`: it rejects an absent field, any
non-string value, and the empty string (falsy).  On success the new contact
gets `id = Date.now().toString()` (the clock value `now` is an input),
`name` from a non-blank trimmed string `name` field or else the raw email
value, the trimmed email, `active = true`, and is pushed to the end. -/
def postEmergencyEmails (body : AddEmailBody) (now : Nat)
    (createdAt logId logTs : String) (st : ServerState) :
    ServerState × AddOutcome :=
  match body.email with
  | some (.jstr s) =>
      if s = "" then (st, .err 400 false)
      else
        let newEmail : EmergencyEmail :=
          { id := natToString now
            name := match body.name with
              | some (.jstr n) => if jsTrim n ≠ "" then jsTrim n else s
              | _ => s
            email := jsTrim s
            active := true
            createdAt := createdAt }
        let emails' := st.emergencyEmails ++ [newEmail]
        let st' :=
          { st with
            emergencyEmails := emails'
            diagnosticLogs :=
              addLog .info ("E-mail de emergencia adicionado: " ++ newEmail.email)
                none logId logTs st.diagnosticLogs }
        (st', .ok 200 true newEmail emails')
  | _ => (st, .err 400 false)

/-- Outcome of `DELETE /admin/emergency/emails/:id`: 404 when no contact has
the id, else 200 with the updated collection. -/
inductive RemoveOutcome where
  | notFound (status : Nat) (success : Bool)
  | ok (status : Nat) (success : Bool) (emails : List EmergencyEmail)
deriving Repr, DecidableEq

/-- The `DELETE /admin/emergency/emails/:id` handler: `exists` via
`some`, then `filter` keeps every contact whose id differs. -/
def deleteEmergencyEmail (id : String) (logId logTs : String)
    (st : ServerState) : ServerState × RemoveOutcome :=
  if st.emergencyEmails.any (fun e => e.id = id) then
    let emails' := st.emergencyEmails.filter (fun e => ¬ e.id = id)
    let st' :=
      { st with
        emergencyEmails := emails'
        diagnosticLogs :=
          addLog .info ("E-mail de emergencia removido: id=" ++ id)
            none logId logTs st.diagnosticLogs }
    (st', .ok 200 true emails')
  else (st, .notFound 404 false)

/-- Whether the nodemailer transport of the second `server.ts` variant is
configured: `canSendEmail = !!smtpHost && !!smtpPort && !!smtpUser &&
!!smtpPass`.  `smtpPort` is the already-computed number
`SMTP_PORT ? Number(SMTP_PORT) : 587`. -/
def canSendEmail (smtpHost : Option String) (smtpPort : JSNum)
    (smtpUser smtpPass : Option String) : Bool :=
  (match smtpHost with | some s => s ≠ "" | none => false)
    && jsNumTruthy smtpPort
    && (match smtpUser with | some s => s ≠ "" | none => false)
    && (match smtpPass with | some s => s ≠ "" | none => false)

/-- Response of `POST /admin/emergency/alert` in the nodemailer variant.
`emailSent` is absent (`none`) in the two 400 validation responses. -/
structure AlertResponse where
  status : Nat
  success : Bool
  emailSent : Option Bool
deriving Repr, DecidableEq

/-- The `POST /admin/emergency/alert` handler of the nodemailer variant.
`canSend` is the module-level `canSendEmail` (the `transporter` is `null`
exactly when it is false, so `!canSendEmail || !transporter` reduces to
`!canSend`); `sendSucceeds` tells whether the external
`transporter.sendMail` call would resolve or throw.  The second component
of the result records whether the transport was invoked at all. -/
def sendAlert (subject message : Option JVal)
    (emergencyEmails : List EmergencyEmail) (canSend : Bool)
    (sendSucceeds : Bool) : AlertResponse × Bool :=
  let activeEmails := activeRecipients emergencyEmails
  if ¬ optTruthy subject ∨ ¬ optTruthy message then
    ({ status := 400, success := false, emailSent := none }, false)
  else if activeEmails.length = 0 then
    ({ status := 400, success := false, emailSent := none }, false)
  else if ¬ canSend then
    ({ status := 200, success := false, emailSent := some false }, false)
  else if sendSucceeds then
    ({ status := 200, success := true, emailSent := some true }, true)
  else
    ({ status := 500, success := false, emailSent := some false }, true)

/-- The recipient list `POST /config/email` rebuilds the registry from:
`Array.isArray(to) ? to.map((e) => String(e).trim()).filter((e) =>
e.length > 0) : []`. -/
def configEmailRecipients (toField : Option JVal) : List String :=
  match toField with
  | some (.jarr l) =>
      (l.map (fun e => jsTrim (jsToString e))).filter (fun e => e.length > 0)
  | _ => []

/-- The `POST /config/email` handler: update the sender override (`from` a
string is trimmed with empty becoming `null`; literal `null` clears it;
anything else leaves it), then unconditionally replace `emergencyEmails`
with contacts rebuilt from the recipients, each active with
`id = Date.now().toString() + "-" + email`.  Responds `success: true`. -/
def postConfigEmail (fromField toField : Option JVal) (now : Nat)
    (createdAt logId logTs : String) (st : ServerState) :
    ServerState × Bool :=
  let from' := match fromField with
    | some (.jstr s) => if jsTrim s = "" then none else some (jsTrim s)
    | some .jnull => none
    | _ => st.emailConfigFrom
  let recipients := configEmailRecipients toField
  let emails' := recipients.map (fun email =>
    { id := natToString now ++ "-" ++ email
      name := email
      email := email
      active := true
      createdAt := createdAt : EmergencyEmail })
  let st' :=
    { st with
      emailConfigFrom := from'
      emergencyEmails := emails'
      diagnosticLogs :=
        addLog .info "Config de e-mail atualizada via /config/email"
          none logId logTs st.diagnosticLogs }
  (st', true)

/-- The `POST /` webhook handler of the first variant: `body = req.body ||
{}`, one `addLog` entry whose context is `JSON.stringify(body)`, and a 200
JSON response echoing the body under `received`. -/
def webhookRoot (body : JVal) (logId logTs : String) (st : ServerState) :
    ServerState × Nat × JVal :=
  let body' := if jsTruthy body then body else .jobj []
  let st' :=
    { st with
      diagnosticLogs :=
        addLog .info "Webhook raiz recebido em /"
          (some (jsonStringify body')) logId logTs st.diagnosticLogs }
  (st', 200,
    .jobj
      [("success", .jbool true),
       ("mode", .jstr "SIMULATION_ONLY"),
       ("robotEnabled", .jbool st.afterHours.robotEnabled),
       ("received", body')])

/-- One queued add request for a run of `POST /admin/emergency/emails`
calls: its body plus the nondeterministic inputs of that call. -/
structure AddRequest where
  body : AddEmailBody
  now : Nat
  createdAt : String
  logId : String
  logTs : String

/-- A sequence of `POST /admin/emergency/emails` calls applied in order,
keeping only the state. -/
def runAdds (reqs : List AddRequest) (st : ServerState) : ServerState :=
  reqs.foldl
    (fun s r => (postEmergencyEmails r.body r.now r.createdAt r.logId r.logTs s).1)
    st

/-- The decimal digit list of a number is never empty. -/
lemma natToDecChars_ne_nil (n : Nat) : natToDecChars n ≠ [] := by
  unfold natToDecChars
  split
  · simp
  · simp

/-- On the ten decimal digits, `Nat.digitChar` is injective. -/
lemma digitChar_injOn_fin : ∀ a b : Fin 10, Nat.digitChar a = Nat.digitChar b → a = b := by
  decide

/-- Injectivity of `Nat.digitChar` below 10. -/
lemma digitChar_inj_of_lt {a b : Nat} (ha : a < 10) (hb : b < 10)
    (h : Nat.digitChar a = Nat.digitChar b) : a = b := by
  have := digitChar_injOn_fin ⟨a, ha⟩ ⟨b, hb⟩ h
  simpa [Fin.ext_iff] using this

/-- Two numbers with the same decimal digit list are equal. -/
lemma natToDecChars_injective : Function.Injective natToDecChars := by
  intro n m h
  induction n using Nat.strong_induction_on generalizing m with
  | _ n ih =>
    unfold natToDecChars at h
    split at h <;> split at h
    case isTrue.isTrue hn hm =>
      exact digitChar_inj_of_lt hn hm (List.singleton_injective h)
    case isTrue.isFalse hn hm =>
      exfalso
      have hlen := congrArg List.length h
      simp only [List.length_singleton, List.length_append] at hlen
      exact natToDecChars_ne_nil (m / 10) (List.length_eq_zero.mp (by omega))
    case isFalse.isTrue hn hm =>
      exfalso
      have hlen := congrArg List.length h
      simp only [List.length_singleton, List.length_append] at hlen
      exact natToDecChars_ne_nil (n / 10) (List.length_eq_zero.mp (by omega))
    case isFalse.isFalse hn hm =>
      have hrev := congrArg List.reverse h
      simp only [List.reverse_append, List.reverse_singleton, List.singleton_append,
        List.cons.injEq] at hrev
      obtain ⟨hd, htl⟩ := hrev
      have hmod : n % 10 = m % 10 :=
        digitChar_inj_of_lt (Nat.mod_lt _ (by omega)) (Nat.mod_lt _ (by omega)) hd
      have hdiv : n / 10 = m / 10 :=
        ih (n / 10) (Nat.div_lt_self (by omega) (by omega))
          (List.reverse_injective htl)
      omega

/-- Two numbers with the same decimal string are equal: the id generator
of the add handler never maps distinct clock values to one id. -/
lemma natToString_injective : Function.Injective natToString := by
  intro n m h
  exact natToDecChars_injective (congrArg String.data h)

/-- An add request either leaves the registry's id list unchanged (failed
validation) or appends exactly the decimal string of its clock value. -/
lemma postEmergencyEmails_ids (body : AddEmailBody) (now : Nat)
    (createdAt logId logTs : String) (st : ServerState) :
    ((postEmergencyEmails body now createdAt logId logTs st).1.emergencyEmails.map
        (fun e => e.id))
      = st.emergencyEmails.map (fun e => e.id)
  ∨ ((postEmergencyEmails body now createdAt logId logTs st).1.emergencyEmails.map
        (fun e => e.id))
      = st.emergencyEmails.map (fun e => e.id) ++ [natToString now] := by
  obtain ⟨nm, em⟩ := body
  cases em with
  | none => left; rfl
  | some v =>
    cases v with
    | jstr s =>
        by_cases hs : s = ""
        · left; simp [postEmergencyEmails, hs]
        · right; simp [postEmergencyEmails, hs]
    | jnull => left; rfl
    | jbool b => left; rfl
    | jnum n => left; rfl
    | jarr l => left; rfl
    | jobj fields => left; rfl

/-- Invariant of a run of add requests: starting from a registry with
duplicate-free ids, none of which any pending request's clock value would
regenerate, pairwise-distinct clock values keep the ids duplicate-free. -/
lemma runAdds_ids_nodup (reqs : List AddRequest) (st : ServerState)
    (h1 : (st.emergencyEmails.map (fun e => e.id)).Nodup)
    (h2 : ∀ r ∈ reqs, natToString r.now ∉ st.emergencyEmails.map (fun e => e.id))
    (h3 : (reqs.map (fun r => r.now)).Nodup) :
    ((runAdds reqs st).emergencyEmails.map (fun e => e.id)).Nodup := by
  induction reqs generalizing st with
  | nil => simpa [runAdds] using h1
  | cons r rest ih =>
    have hstep :
        runAdds (r :: rest) st
          = runAdds rest (postEmergencyEmails r.body r.now r.createdAt r.logId r.logTs st).1 := by
      simp [runAdds]
    rw [hstep]
    simp only [List.map_cons, List.nodup_cons, List.mem_map] at h3
    rcases postEmergencyEmails_ids r.body r.now r.createdAt r.logId r.logTs st with hc | hc
    · exact ih _ (by rw [hc]; exact h1)
        (fun r' hr' => by rw [hc]; exact h2 r' (List.mem_cons_of_mem r hr'))
        h3.2
    · refine ih _ ?_ ?_ h3.2
      · rw [hc]
        refine List.Nodup.append h1 (List.nodup_singleton _) ?_
        intro a ha hb
        rw [List.mem_singleton] at hb
        subst hb
        exact h2 r (List.mem_cons_self r rest) ha
      · intro r' hr'
        rw [hc, List.mem_append, List.mem_singleton]
        rintro (hin | heq)
        · exact h2 r' (List.mem_cons_of_mem r hr') hin
        · exact h3.1 ⟨r', hr', natToString_injective heq⟩

/-- C6 (amended): every successful add assigns the new contact the id
`Date.now().toString()`, so within a process run all contact ids are
pairwise distinct provided the adds' clock values are pairwise distinct;
two adds in the same millisecond receive the same id. -/
theorem add_ids_nodup_of_distinct_timestamps (reqs : List AddRequest)
    (h : (reqs.map (fun r => r.now)).Nodup) :
    ((runAdds reqs initialServerState).emergencyEmails.map (fun e => e.id)).Nodup :=
  runAdds_ids_nodup reqs initialServerState (by simp [initialServerState])
    (by simp [initialServerState]) h

/-- Witness for the amended C6 theorem: two adds at clock values 1 and 2. -/
theorem add_ids_nodup_of_distinct_timestamps_witness :
    (([⟨{ email := some (.jstr "ops@x.com") }, 1, "c1", "l1", "t1"⟩,
       ⟨{ email := some (.jstr "eng@x.com") }, 2, "c2", "l2", "t2"⟩] :
        List AddRequest).map (fun r => r.now)).Nodup
  ∧ ((runAdds
        [⟨{ email := some (.jstr "ops@x.com") }, 1, "c1", "l1", "t1"⟩,
         ⟨{ email := some (.jstr "eng@x.com") }, 2, "c2", "l2", "t2"⟩]
        initialServerState).emergencyEmails.map (fun e => e.id)).Nodup :=
  ⟨by simp,
   add_ids_nodup_of_distinct_timestamps
     [⟨{ email := some (.jstr "ops@x.com") }, 1, "c1", "l1", "t1"⟩,
      ⟨{ email := some (.jstr "eng@x.com") }, 2, "c2", "l2", "t2"⟩]
     (by simp)⟩

/-- C6 counterexample: two valid adds handled in the same millisecond
(`Date.now() = 1000` for both) both get the id `"1000"`, so the registry's
ids are not pairwise distinct, refuting within-run id uniqueness. -/
theorem add_id_collision_counterexample :
    ¬ ((runAdds
          [⟨{ email := some (.jstr "ops@x.com") }, 1000, "c1", "l1", "t1"⟩,
           ⟨{ email := some (.jstr "eng@x.com") }, 1000, "c2", "l2", "t2"⟩]
          initialServerState).emergencyEmails.map (fun e => e.id)).Nodup := by
  simp [runAdds, postEmergencyEmails, initialServerState, addLog]

/-- A removal with no matching contact returns 404 and the unchanged
state. -/
lemma deleteEmergencyEmail_no_match (id logId logTs : String)
    (st : ServerState) (h : ∀ c ∈ st.emergencyEmails, c.id ≠ id) :
    deleteEmergencyEmail id logId logTs st = (st, .notFound 404 false) := by
  have hany : st.emergencyEmails.any (fun e => e.id = id) = false := by
    simp only [List.any_eq_false, decide_eq_true_eq]
    exact h
  simp [deleteEmergencyEmail, hany]

/-- C4: `DELETE /admin/emergency/emails/:id` fails with `NotFoundError`
(HTTP 404, `success: false`) exactly when no contact has the given id, and
then leaves the whole state unchanged; otherwise it removes the contact and
returns the updated collection, and a second removal of the same id fails
with `NotFoundError` while leaving the state unchanged. -/
theorem deleteEmergencyEmail_notFound_iff (id logId logTs : String)
    (st : ServerState) :
    ((∀ c ∈ st.emergencyEmails, c.id ≠ id) →
        deleteEmergencyEmail id logId logTs st = (st, .notFound 404 false))
  ∧ ((∃ c ∈ st.emergencyEmails, c.id = id) →
        (deleteEmergencyEmail id logId logTs st).1.emergencyEmails
            = st.emergencyEmails.filter (fun e => ¬ e.id = id)
      ∧ (deleteEmergencyEmail id logId logTs st).2
            = .ok 200 true (st.emergencyEmails.filter (fun e => ¬ e.id = id))
      ∧ ∀ logId2 logTs2 : String,
          deleteEmergencyEmail id logId2 logTs2
              (deleteEmergencyEmail id logId logTs st).1
            = ((deleteEmergencyEmail id logId logTs st).1, .notFound 404 false)) := by
  constructor
  · exact deleteEmergencyEmail_no_match id logId logTs st
  · rintro ⟨c, hc, hcid⟩
    have hany : st.emergencyEmails.any (fun e => e.id = id) = true :=
      List.any_eq_true.mpr ⟨c, hc, by simp [hcid]⟩
    have hfil : (deleteEmergencyEmail id logId logTs st).1.emergencyEmails
        = st.emergencyEmails.filter (fun e => ¬ e.id = id) := by
      simp [deleteEmergencyEmail, hany]
    refine ⟨hfil, by simp [deleteEmergencyEmail, hany], ?_⟩
    intro logId2 logTs2
    apply deleteEmergencyEmail_no_match
    rw [hfil]
    intro e he
    rw [List.mem_filter] at he
    simpa using he.2

/-- Witness for the C4 theorem: a one-contact registry, removal by its id
succeeds, and the repeated removal fails with 404. -/
theorem deleteEmergencyEmail_notFound_iff_witness :
    (∃ c ∈ ({ afterHours := initialServerState.afterHours
              emergencyEmails :=
                [{ id := "7", name := "ops", email := "ops@x.com",
                   active := true, createdAt := "t" }]
              emailConfigFrom := none
              chatguru := initialServerState.chatguru
              diagnosticLogs := [] : ServerState }).emergencyEmails, c.id = "7")
  ∧ (deleteEmergencyEmail "7" "l" "t"
        { afterHours := initialServerState.afterHours
          emergencyEmails :=
            [{ id := "7", name := "ops", email := "ops@x.com",
               active := true, createdAt := "t" }]
          emailConfigFrom := none
          chatguru := initialServerState.chatguru
          diagnosticLogs := [] }).1.emergencyEmails
      = (({ id := "7", name := "ops", email := "ops@x.com", active := true,
            createdAt := "t" } : EmergencyEmail) ::
          ([] : List EmergencyEmail)).filter (fun e => ¬ e.id = "7") :=
  ⟨⟨{ id := "7", name := "ops", email := "ops@x.com", active := true,
      createdAt := "t" }, by simp, rfl⟩,
   (deleteEmergencyEmail_notFound_iff "7" "l" "t" _).2
     ⟨{ id := "7", name := "ops", email := "ops@x.com", active := true,
        createdAt := "t" }, by simp, rfl⟩ |>.1⟩

/-- C8: for every starting log with at most 100 entries, `addLog` inserts
the new entry at the front; when the length would exceed 100 it drops
exactly the oldest (last) entry, so the log stays at most 100 entries long
and keeps newest-first order. -/
theorem addLog_bounded_newest_first (level : LogLevel)
    (message : String) (context : Option String) (entryId timestamp : String)
    (logs : List DiagnosticLogEntry) (h : logs.length ≤ 100) :
    (logs.length < 100 →
      addLog level message context entryId timestamp logs
        = { id := entryId, level := level, message := message,
            timestamp := timestamp, context := context } :: logs)
  ∧ (logs.length = 100 →
      addLog level message context entryId timestamp logs
        = { id := entryId, level := level, message := message,
            timestamp := timestamp, context := context } :: logs.dropLast)
  ∧ (addLog level message context entryId timestamp logs).length ≤ 100 := by
  refine ⟨?_, ?_, ?_⟩
  · intro hlt
    rw [addLog, if_neg]
    simp
    omega
  · intro heq
    rcases logs with _ | ⟨e, tl⟩
    · simp at heq
    · rw [addLog, if_pos]
      · simp
      · simp only [List.length_cons] at heq ⊢
        omega
  · rw [addLog]
    split
    · rename_i hgt
      simp only [List.length_cons] at hgt
      simp only [List.length_dropLast, List.length_cons]
      omega
    · rename_i hle
      simp only [List.length_cons, not_lt] at hle
      simp only [List.length_cons]
      omega

/-- Witness for the C8 theorem: adding to the empty log puts the entry in
front. -/
theorem addLog_bounded_newest_first_witness :
    (([] : List DiagnosticLogEntry).length < 100)
  ∧ addLog .info "m" none "id1" "ts" []
      = [{ id := "id1", level := .info, message := "m", timestamp := "ts",
           context := none }] :=
  ⟨by simp,
   (addLog_bounded_newest_first .info "m" none "id1" "ts" [] (by simp)).1 (by simp)⟩

/-- C3 counterexample: `{maxAutoReplies: Infinity}` is not a finite positive
number, yet the handler mutates the stored value (to `Infinity`): the
source tests `!Number.isNaN`, not finiteness. -/
theorem updateGeneralConfig_infinity_counterexample :
    (updateGeneralConfig { maxAutoReplies := some (.jnum .posInf) }
        initialServerState.afterHours).maxAutoReplies = .posInf
  ∧ initialServerState.afterHours.maxAutoReplies = .finite 10
  ∧ (JSNum.posInf : JSNum) ≠ .finite 10 := by
  refine ⟨?_, rfl, by simp⟩
  rfl

/-- What `PUT /admin/after-hours/config` stores in `maxAutoReplies`: the
floor of the supplied value when it is a number other than `NaN` that is
greater than zero (`Infinity` included, stored as `Infinity`), the previous
value otherwise. -/
lemma updateGeneralConfig_maxAutoReplies (body : UpdateConfigBody)
    (cfg : AfterHoursConfig) :
    (updateGeneralConfig body cfg).maxAutoReplies
      = match body.maxAutoReplies with
        | some (.jnum n) =>
            if n ≠ .nan ∧ jsGtZero n then jsFloor n else cfg.maxAutoReplies
        | _ => cfg.maxAutoReplies := by
  obtain ⟨rE, aI, aF, mAR⟩ := body
  unfold updateGeneralConfig
  dsimp only
  repeat' split
  all_goals simp_all

/-- C3 (amended): `PUT /admin/after-hours/config` changes `maxAutoReplies`
exactly when the supplied value is a number other than `NaN` that is greater
than zero — `Infinity` included, which is stored as `Infinity` — storing the
floor of the value; finite positive values are floored to an integer, and
any other value or an absent field leaves the previous value unchanged while
the request still succeeds (`-1` causes no mutation, `3.7` stores `3`). -/
theorem updateGeneralConfig_maxAutoReplies_amended (body : UpdateConfigBody)
    (cfg : AfterHoursConfig) :
    (∀ n : JSNum, body.maxAutoReplies = some (.jnum n) → n ≠ .nan →
        jsGtZero n = true →
        (updateGeneralConfig body cfg).maxAutoReplies = jsFloor n)
  ∧ (∀ q : Rat, body.maxAutoReplies = some (.jnum (.finite q)) → 0 < q →
        (updateGeneralConfig body cfg).maxAutoReplies = .finite (q.floor : Int))
  ∧ ((∀ n : JSNum, body.maxAutoReplies = some (.jnum n) →
        n = .nan ∨ jsGtZero n = false) →
        (updateGeneralConfig body cfg).maxAutoReplies = cfg.maxAutoReplies)
  ∧ (∀ logId logTs : String, ∀ st : ServerState,
        (putAfterHoursConfig body logId logTs st).2.success = true
      ∧ (putAfterHoursConfig body logId logTs st).2.status = 200) := by
  refine ⟨?_, ?_, ?_, ?_⟩
  · intro n hn hnan hpos
    rw [updateGeneralConfig_maxAutoReplies, hn]
    simp [hnan, hpos]
  · intro q hq hpos
    rw [updateGeneralConfig_maxAutoReplies, hq]
    simp [jsGtZero, jsFloor, hpos]
  · intro hall
    rw [updateGeneralConfig_maxAutoReplies]
    rcases hmar : body.maxAutoReplies with _ | v
    · rfl
    · cases v with
      | jnum n =>
          rcases hall n hmar with h | h
          · simp [h]
          · simp [h]
      | jnull => rfl
      | jbool b => rfl
      | jstr s => rfl
      | jarr l => rfl
      | jobj fields => rfl
  · intro logId logTs st
    exact ⟨rfl, rfl⟩

/-- Witness for the amended C3 theorem: `3.7` is stored floored (as `3`)
and `-1` causes no mutation. -/
theorem updateGeneralConfig_maxAutoReplies_amended_witness :
    (0 : Rat) < 37 / 10
  ∧ (updateGeneralConfig { maxAutoReplies := some (.jnum (.finite (37 / 10))) }
        initialServerState.afterHours).maxAutoReplies
      = .finite (((37 / 10 : Rat).floor : Int))
  ∧ (((37 / 10 : Rat).floor : Int)) = 3
  ∧ (updateGeneralConfig { maxAutoReplies := some (.jnum (.finite (-1))) }
        initialServerState.afterHours).maxAutoReplies
      = initialServerState.afterHours.maxAutoReplies :=
  ⟨by norm_num,
   (updateGeneralConfig_maxAutoReplies_amended
      { maxAutoReplies := some (.jnum (.finite (37 / 10))) }
      initialServerState.afterHours).2.1 (37 / 10) rfl (by norm_num),
   by rw [Rat.floor_def']; norm_num,
   (updateGeneralConfig_maxAutoReplies_amended
      { maxAutoReplies := some (.jnum (.finite (-1))) }
      initialServerState.afterHours).2.2.1
     (by
       intro n hn
       simp only [Option.some.injEq, JVal.jnum.injEq] at hn
       subst hn
       right
       norm_num [jsGtZero])⟩

/-- C1: whenever an alert request passes validation (non-empty string
subject and message, at least one active emergency contact), the handler
responds 200 with `success:false, emailSent:false` when the transport is
unconfigured (without invoking it), 500 with `success:false,
emailSent:false` when the transport's send throws, and `success:true,
emailSent:true` (status 200) when the send succeeds. -/
theorem sendAlert_transport_branches (subject message : Option JVal)
    (emails : List EmergencyEmail) (canSend sendSucceeds : Bool)
    (hs : ∃ s, subject = some (.jstr s) ∧ s ≠ "")
    (hm : ∃ m, message = some (.jstr m) ∧ m ≠ "")
    (hr : activeRecipients emails ≠ []) :
    (canSend = false →
        sendAlert subject message emails canSend sendSucceeds
          = ({ status := 200, success := false, emailSent := some false }, false))
  ∧ (canSend = true → sendSucceeds = false →
        (sendAlert subject message emails canSend sendSucceeds).1
          = { status := 500, success := false, emailSent := some false })
  ∧ (canSend = true → sendSucceeds = true →
        (sendAlert subject message emails canSend sendSucceeds).1
          = { status := 200, success := true, emailSent := some true }) := by
  obtain ⟨s, hsv, hsne⟩ := hs
  obtain ⟨m, hmv, hmne⟩ := hm
  have hlen : (activeRecipients emails).length ≠ 0 := by
    simpa [List.length_eq_zero] using hr
  refine ⟨?_, ?_, ?_⟩ <;> intro hcs
  · subst hcs
    simp [sendAlert, hsv, hmv, hsne, hmne, optTruthy, jsTruthy, hlen]
  · intro hss
    subst hcs hss
    simp [sendAlert, hsv, hmv, hsne, hmne, optTruthy, jsTruthy, hlen]
  · intro hss
    subst hcs hss
    simp [sendAlert, hsv, hmv, hsne, hmne, optTruthy, jsTruthy, hlen]

/-- Witness for the C1 theorem: one active contact, unconfigured transport,
response 200 with both flags false. -/
theorem sendAlert_transport_branches_witness :
    (∃ s, (some (JVal.jstr "Server down") : Option JVal)
        = some (.jstr s) ∧ s ≠ "")
  ∧ activeRecipients
      [{ id := "1", name := "ops", email := "ops@x.com", active := true,
         createdAt := "t" }] ≠ []
  ∧ sendAlert (some (.jstr "Server down")) (some (.jstr "Please check"))
      [{ id := "1", name := "ops", email := "ops@x.com", active := true,
         createdAt := "t" }] false false
      = ({ status := 200, success := false, emailSent := some false }, false) :=
  ⟨⟨"Server down", rfl, by simp⟩,
   by simp [activeRecipients],
   (sendAlert_transport_branches (some (.jstr "Server down"))
      (some (.jstr "Please check"))
      [{ id := "1", name := "ops", email := "ops@x.com", active := true,
         createdAt := "t" }] false false
      ⟨"Server down", rfl, by simp⟩ ⟨"Please check", rfl, by simp⟩
      (by simp [activeRecipients])).1 rfl⟩

/-- C2: the alert handler responds 400 `success:false` without touching the
transport whenever subject or message is empty or absent, and — when both
fields are present — whenever there is no active emergency contact; in both
cases this holds for every transport configuration and outcome. -/
theorem sendAlert_validation (subject message : Option JVal)
    (emails : List EmergencyEmail) (canSend sendSucceeds : Bool) :
    ((subject = none ∨ subject = some (.jstr "") ∨ message = none
        ∨ message = some (.jstr "")) →
        (sendAlert subject message emails canSend sendSucceeds).1.status = 400
      ∧ (sendAlert subject message emails canSend sendSucceeds).1.success = false
      ∧ (sendAlert subject message emails canSend sendSucceeds).2 = false)
  ∧ (subject.isSome → message.isSome → activeRecipients emails = [] →
        (sendAlert subject message emails canSend sendSucceeds).1.status = 400
      ∧ (sendAlert subject message emails canSend sendSucceeds).1.success = false
      ∧ (sendAlert subject message emails canSend sendSucceeds).2 = false) := by
  constructor
  · rintro (h | h | h | h) <;> subst h <;>
      simp [sendAlert, optTruthy, jsTruthy]
  · intro _ _ hrec
    by_cases hv : ¬ optTruthy subject ∨ ¬ optTruthy message
    · have hv' : optTruthy subject = false ∨ optTruthy message = false := by
        rcases hv with h | h
        · exact Or.inl (by simpa using h)
        · exact Or.inr (by simpa using h)
      simp [sendAlert, hv']
    · simp [sendAlert, hv, hrec]

/-- Witness for the C2 theorem: an absent subject yields 400 regardless of
a configured, succeeding transport. -/
theorem sendAlert_validation_witness :
    (sendAlert none (some (.jstr "body")) [] true true).1.status = 400
  ∧ (sendAlert none (some (.jstr "body")) [] true true).1.success = false
  ∧ (sendAlert none (some (.jstr "body")) [] true true).2 = false :=
  (sendAlert_validation none (some (.jstr "body")) [] true true).1 (Or.inl rfl)

/-- C5 counterexample: a request whose `email` field is present and is a
string — the empty string — still fails validation (the guard `!email`
rejects every falsy value), so "fails exactly when email is missing or not
a string" does not hold. -/
theorem postEmergencyEmails_empty_string_counterexample :
    (postEmergencyEmails { email := some (.jstr "") } 1 "c" "l" "t"
        initialServerState).2 = .err 400 false := by
  rfl

/-- A failing add: when the `email` field is absent, not a string, or the
empty string, the handler returns 400 and leaves the state unchanged. -/
lemma postEmergencyEmails_err (body : AddEmailBody) (now : Nat)
    (createdAt logId logTs : String) (st : ServerState)
    (h : ∀ s, body.email = some (.jstr s) → s = "") :
    postEmergencyEmails body now createdAt logId logTs st
      = (st, .err 400 false) := by
  obtain ⟨nm, em⟩ := body
  rcases em with _ | v
  · rfl
  · cases v with
    | jstr s =>
        have hs := h s rfl
        simp [postEmergencyEmails, hs]
    | jnull => rfl
    | jbool b => rfl
    | jnum n => rfl
    | jarr l => rfl
    | jobj fields => rfl

/-- C5 (amended): the add fails with `ValidationError` (HTTP 400) exactly
when `email` is missing, not a string, or the empty string; otherwise it
appends to the end of the collection a contact with the trimmed email,
`active = true`, id from the clock, and a name that is the trimmed `name`
when that is a non-blank string and the raw email value otherwise; the
response carries the created contact and the full updated collection, and
a subsequent list returns the new contact. -/
theorem postEmergencyEmails_add_amended (body : AddEmailBody) (now : Nat)
    (createdAt logId logTs : String) (st : ServerState) :
    ((postEmergencyEmails body now createdAt logId logTs st).2 = .err 400 false
        ↔ (∀ s, body.email = some (.jstr s) → s = ""))
  ∧ ((∀ s, body.email = some (.jstr s) → s = "") →
        postEmergencyEmails body now createdAt logId logTs st
          = (st, .err 400 false))
  ∧ (∀ s, body.email = some (.jstr s) → s ≠ "" →
      ∃ created : EmergencyEmail,
        (postEmergencyEmails body now createdAt logId logTs st).2
            = .ok 200 true created (st.emergencyEmails ++ [created])
        ∧ (postEmergencyEmails body now createdAt logId logTs st).1.emergencyEmails
            = st.emergencyEmails ++ [created]
        ∧ created.email = jsTrim s
        ∧ created.active = true
        ∧ created.id = natToString now
        ∧ created.createdAt = createdAt
        ∧ (∀ nm, body.name = some (.jstr nm) → jsTrim nm ≠ "" →
            created.name = jsTrim nm)
        ∧ ((∀ nm, body.name = some (.jstr nm) → jsTrim nm = "") →
            created.name = s)
        ∧ created ∈ (getEmergencyEmails
            (postEmergencyEmails body now createdAt logId logTs st).1).2) := by
  obtain ⟨nm, em⟩ := body
  rcases em with _ | v
  · exact ⟨by simp [postEmergencyEmails], fun _ => rfl, by simp⟩
  · cases v with
    | jstr s =>
        by_cases h0 : s = ""
        · subst h0
          refine ⟨?_, ?_, ?_⟩
          · simp [postEmergencyEmails]
          · intro _
            exact postEmergencyEmails_err ⟨nm, some (.jstr "")⟩ now createdAt
              logId logTs st (by simp)
          · intro s' hs' hne
            exfalso
            apply hne
            simpa using hs'.symm
        · refine ⟨?_, ?_, ?_⟩
          · constructor
            · intro habs
              simp [postEmergencyEmails, h0] at habs
            · intro hall
              exact absurd (hall s rfl) h0
          · intro hall
            exact absurd (hall s rfl) h0
          · intro s' hs' hne
            have hss : s = s' := by simpa using hs'
            subst hss
            clear hs' hne
            refine ⟨{ id := natToString now,
                      name := match nm with
                        | some (.jstr n) => if jsTrim n ≠ "" then jsTrim n else s
                        | _ => s,
                      email := jsTrim s, active := true, createdAt := createdAt },
                    ?_, ?_, rfl, rfl, rfl, rfl, ?_, ?_, ?_⟩
            · simp [postEmergencyEmails, h0]
            · simp [postEmergencyEmails, h0]
            · intro nm' hnm hnb
              subst hnm
              simp [hnb]
            · intro hall
              rcases nm with _ | w
              · rfl
              · cases w with
                | jstr n =>
                    have hn := hall n rfl
                    simp [hn]
                | jnull => rfl
                | jbool b => rfl
                | jnum k => rfl
                | jarr l => rfl
                | jobj fields => rfl
            · simp [getEmergencyEmails, postEmergencyEmails, h0]
    | jnull => exact ⟨by simp [postEmergencyEmails], fun _ => rfl, by simp⟩
    | jbool b => exact ⟨by simp [postEmergencyEmails], fun _ => rfl, by simp⟩
    | jnum n => exact ⟨by simp [postEmergencyEmails], fun _ => rfl, by simp⟩
    | jarr l => exact ⟨by simp [postEmergencyEmails], fun _ => rfl, by simp⟩
    | jobj fields => exact ⟨by simp [postEmergencyEmails], fun _ => rfl, by simp⟩

/-- Witness for the amended C5 theorem: adding `ops@x.com` appends an
active contact carrying that email. -/
theorem postEmergencyEmails_add_amended_witness :
    ∃ created : EmergencyEmail,
      (postEmergencyEmails { email := some (.jstr "ops@x.com") } 5 "c" "l" "t"
          initialServerState).2
        = .ok 200 true created (initialServerState.emergencyEmails ++ [created])
      ∧ created.active = true
      ∧ created.email = "ops@x.com" := by
  obtain ⟨c, h1, h2, h3, h4, h5, h6, h7, h8, h9⟩ :=
    (postEmergencyEmails_add_amended { email := some (.jstr "ops@x.com") } 5
        "c" "l" "t" initialServerState).2.2 "ops@x.com" rfl (by decide)
  refine ⟨c, h1, h4, ?_⟩
  rw [h3]
  decide

/-- C10: a whitespace-only email (three spaces) passes the add handler's
validation; the created contact stores the empty string as its email with
`active = true`, the empty address shows up in the active recipient list
used by the status reads and the alert handler, and a subsequent alert
request passes the recipient check, reaching the transport branch. -/
theorem whitespace_email_accepted :
    (∃ created emails', (postEmergencyEmails { email := some (.jstr "   ") } 9
        "c" "l" "t" initialServerState).2 = .ok 200 true created emails'
      ∧ created.email = "" ∧ created.active = true)
  ∧ "" ∈ getConfigEmailTo
      (postEmergencyEmails { email := some (.jstr "   ") } 9 "c" "l" "t"
        initialServerState).1
  ∧ "" ∈ activeRecipients
      (postEmergencyEmails { email := some (.jstr "   ") } 9 "c" "l" "t"
        initialServerState).1.emergencyEmails
  ∧ (sendAlert (some (.jstr "subj")) (some (.jstr "msg"))
      (postEmergencyEmails { email := some (.jstr "   ") } 9 "c" "l" "t"
        initialServerState).1.emergencyEmails false false).1
      = { status := 200, success := false, emailSent := some false } := by
  refine ⟨⟨{ id := natToString 9, name := "   ", email := jsTrim "   ",
             active := true, createdAt := "c" },
           [{ id := natToString 9, name := "   ", email := jsTrim "   ",
              active := true, createdAt := "c" }], ?_, by decide, rfl⟩, ?_, ?_, ?_⟩
  · simp [postEmergencyEmails, initialServerState]
  · simp [getConfigEmailTo, activeRecipients, postEmergencyEmails,
      initialServerState]
    decide
  · simp [activeRecipients, postEmergencyEmails, initialServerState]
    decide
  · simp [sendAlert, postEmergencyEmails, initialServerState,
      activeRecipients, optTruthy, jsTruthy]

/-- The webhook body of the spec scenario:
`{"texto_mensagem":"oi","celular":"5511999999999"}`. -/
def oiPayload : JVal :=
  .jobj [("texto_mensagem", .jstr "oi"), ("celular", .jstr "5511999999999")]

/-- C7 counterexample: the webhook response has no `receivedSummary` field
at all — the handler echoes the entire body under `received` — so
`receivedSummary.texto_mensagem` cannot be `"oi"`. -/
theorem webhookRoot_no_receivedSummary :
    jlookup (webhookRoot oiPayload "l" "t" initialServerState).2.2
        "receivedSummary" = none
  ∧ jlookup (webhookRoot oiPayload "l" "t" initialServerState).2.2 "received"
      = some oiPayload
  ∧ jlookup oiPayload "texto_mensagem" = some (.jstr "oi") := by
  refine ⟨rfl, rfl, rfl⟩

/-- C7 (amended): for every JSON payload the webhook receiver responds 200
with `mode: "SIMULATION_ONLY"`, echoes the entire (falsy-normalized) payload
unmodified under `received` — there is no normalized `receivedSummary`
field — writes exactly one diagnostic-log entry whose context is the
serialized payload, and leaves the after-hours config, chat-platform
config, email-sender override and the emergency contact registry
unchanged. -/
theorem webhookRoot_echo_and_frame (body : JVal) (logId logTs : String)
    (st : ServerState) :
    (webhookRoot body logId logTs st).2.1 = 200
  ∧ jlookup (webhookRoot body logId logTs st).2.2 "mode"
      = some (.jstr "SIMULATION_ONLY")
  ∧ jlookup (webhookRoot body logId logTs st).2.2 "received"
      = some (if jsTruthy body then body else .jobj [])
  ∧ jlookup (webhookRoot body logId logTs st).2.2 "receivedSummary" = none
  ∧ (webhookRoot body logId logTs st).1.afterHours = st.afterHours
  ∧ (webhookRoot body logId logTs st).1.emergencyEmails = st.emergencyEmails
  ∧ (webhookRoot body logId logTs st).1.emailConfigFrom = st.emailConfigFrom
  ∧ (webhookRoot body logId logTs st).1.chatguru = st.chatguru
  ∧ (webhookRoot body logId logTs st).1.diagnosticLogs
      = addLog .info "Webhook raiz recebido em /"
          (some (jsonStringify (if jsTruthy body then body else .jobj [])))
          logId logTs st.diagnosticLogs := by
  refine ⟨rfl, rfl, rfl, rfl, rfl, rfl, rfl, rfl, rfl⟩

/-- C9: `POST /config/email` rebuilds the registry solely from the `to`
array (each element string-coerced, trimmed, blanks dropped, all contacts
active): the previous registry does not appear in the result, a request
that omits `to` or supplies a non-array leaves the registry empty, and the
request reports success. -/
theorem postConfigEmail_replaces_registry (fromField toField : Option JVal)
    (now : Nat) (createdAt logId logTs : String) (st : ServerState) :
    ((postConfigEmail fromField toField now createdAt logId logTs
          st).1.emergencyEmails
        = (configEmailRecipients toField).map (fun email =>
            { id := natToString now ++ "-" ++ email, name := email,
              email := email, active := true, createdAt := createdAt }))
  ∧ (∀ c ∈ (postConfigEmail fromField toField now createdAt logId logTs
        st).1.emergencyEmails, c.active = true)
  ∧ (toField = none →
      (postConfigEmail fromField toField now createdAt logId logTs
        st).1.emergencyEmails = [])
  ∧ (∀ v, toField = some v → (∀ l, v ≠ .jarr l) →
      (postConfigEmail fromField toField now createdAt logId logTs
        st).1.emergencyEmails = [])
  ∧ (postConfigEmail fromField toField now createdAt logId logTs st).2
      = true := by
  refine ⟨rfl, ?_, ?_, ?_, rfl⟩
  · intro c hc
    simp only [postConfigEmail, List.mem_map] at hc
    obtain ⟨e, he, hceq⟩ := hc
    rw [← hceq]
  · intro h
    subst h
    rfl
  · intro v hv hnl
    subst hv
    cases v with
    | jarr l => exact absurd rfl (hnl l)
    | jnull => rfl
    | jbool b => rfl
    | jnum n => rfl
    | jstr s => rfl
    | jobj fields => rfl

/-- Witness for the C9 theorem: a request that only sets `from` wipes a
previously non-empty registry. -/
theorem postConfigEmail_replaces_registry_witness :
    (postConfigEmail (some (.jstr "me@x.com")) none 7 "c" "l" "t"
        { afterHours := initialServerState.afterHours
          emergencyEmails :=
            [{ id := "1", name := "ops", email := "ops@x.com",
               active := true, createdAt := "t0" }]
          emailConfigFrom := none
          chatguru := initialServerState.chatguru
          diagnosticLogs := [] }).1.emergencyEmails = [] :=
  (postConfigEmail_replaces_registry (some (.jstr "me@x.com")) none 7 "c" "l"
      "t" _).2.2.1 rfl
